import Mathlib

/-!
Verification of the Oversight Gateway risk engine.

This file is a shallow embedding of the core of the repository:
the risk scorer, compound-action detection, near-miss learning,
checkpoint decision (src/oversight_gateway/risk_engine.py), the
approval and near-miss recording paths, the request validation of
src/oversight_gateway/schemas.py, and the budget endpoint of
src/oversight_gateway/main.py.

Numbers are modelled exactly: Python floats become rationals, except
for the near-miss half-life decay 0.5 ** (age / half_life), which is
real-valued exponentiation and is modelled over the reals.
Timestamps are rationals measured in seconds.

Python "metadata" dictionaries are modelled as association lists of
tagged values; truthiness follows Python (false, 0, "", [] are falsy).
Inputs on which the source raises an exception mid-computation (for
example a non-numeric string passed as an "amount") are outside the
model, and no claim depends on them; the numeric reading of a string
value is modelled as 0 after the truthiness guard.
-/

/-- A metadata value: the tagged variants a request's metadata map can
hold (bool, number, string, list of strings). -/
inductive MetaValue where
  | vBool (b : Bool)
  | vNum (q : ℚ)
  | vStr (s : String)
  | vList (l : List String)
deriving DecidableEq, Repr

/-- A metadata map, as passed in an evaluate request. -/
def Metadata := List (String × MetaValue)

/-- Python truthiness of a metadata value: False, 0, "" and [] are falsy. -/
def MetaValue.truthy : MetaValue → Bool
  | .vBool b => b
  | .vNum q => decide (q ≠ 0)
  | .vStr s => decide (s ≠ "")
  | .vList l => !l.isEmpty

/-- Dictionary lookup, metadata.get(k): None when the key is missing. -/
def metaGet (md : Metadata) (k : String) : Option MetaValue :=
  List.lookup k md

/-- Python's "key in metadata and metadata[key]" / "metadata.get(key)" used
as a condition: the key is present and its value is truthy. -/
def metaTruthy (md : Metadata) (k : String) : Bool :=
  match metaGet md k with
  | some v => v.truthy
  | none => false

/-- Numeric reading of a metadata value, as float(value) reads it in the
source (float(True) = 1.0); a non-numeric string would raise there and is
outside the model (read as 0). -/
def MetaValue.pyNum : MetaValue → ℚ
  | .vBool b => if b then 1 else 0
  | .vNum q => q
  | .vStr _ => 0
  | .vList _ => 0

/-- Recipient count: len() of a list, otherwise int() of the value
(truncation toward zero, as Python int() truncates). -/
def MetaValue.pyCount : MetaValue → ℤ
  | .vList l => l.length
  | .vNum q => q.num / (q.den : ℤ)
  | .vBool b => if b then 1 else 0
  | .vStr _ => 0

/-- Numeric value of a key, 0 when absent (only read behind a truthiness
guard in the source). -/
def metaNum (md : Metadata) (k : String) : ℚ :=
  match metaGet md k with
  | some v => v.pyNum
  | none => 0

/-- Count value of a key, 0 when absent. -/
def metaCount (md : Metadata) (k : String) : ℤ :=
  match metaGet md k with
  | some v => v.pyCount
  | none => 0

/-- An action rule of the policy (config.py, ActionRule). -/
structure ActionRule where
  pattern : String
  impact_floor : ℚ
  always_checkpoint : Bool := false
  metadata_boosts : List (String × ℚ) := []
  description : String := ""
deriving Repr

/-- Risk thresholds of the policy (config.py, RiskThresholds). -/
structure RiskThresholds where
  checkpoint_trigger : ℚ := 6/10
  session_budget : ℚ := 8/10
deriving Repr

/-- Compound detection parameters (config.py, CompoundDetection). -/
structure CompoundDetection where
  time_window_seconds : ℚ := 300
  same_resource_boost : ℚ := 2/10
  min_count : ℤ := 2
deriving Repr

/-- Near-miss learning parameters (config.py, NearMissConfig). -/
structure NearMissConfig where
  half_life_hours : ℚ := 24
  max_multiplier : ℚ := 2
  min_severity : ℚ := 1/10
deriving Repr

/-- The policy (config.py, PolicyConfig; the advisory ApprovalConfig is
never read by the engine and is omitted). -/
structure PolicyConfig where
  risk_thresholds : RiskThresholds := {}
  action_rules : List ActionRule := []
  compound_detection : CompoundDetection := {}
  near_miss : NearMissConfig := {}
deriving Repr

/-- Anchored glob match: the source replaces * with .* and calls re.match
case-insensitively, so the pattern must match a prefix of the action name,
with * standing for any run of characters. Other regex metacharacters pass
through unescaped in the source; patterns are taken literally here, which
agrees on the glob patterns the policy format describes. -/
def globMatch : List Char → List Char → Bool
  | [], _ => true
  | '*' :: ps, [] => globMatch ps []
  | '*' :: ps, c :: s => globMatch ps (c :: s) || globMatch ('*' :: ps) s
  | _ :: _, [] => false
  | p :: ps, c :: s => p.toLower == c.toLower && globMatch ps s
termination_by ps s => (ps.length, s.length)

/-- First action rule whose pattern matches the action name
(config.py, PolicyConfig.get_action_rule). -/
def get_action_rule (policy : PolicyConfig) (action : String) : Option ActionRule :=
  policy.action_rules.find? (fun r => globMatch r.pattern.toList action.toList)

/-- Occurrence of a word inside a string (Python "word in s"). -/
def strContains (s w : String) : Bool :=
  decide (w.toList <:+: s.toList)

/-- Python str.lower, modelled characterwise. -/
def pyLower (s : String) : String := String.mk (s.data.map Char.toLower)

/-- The clamped additive boost of the source, min(1.0, x + c). -/
def clampAdd (x c : ℚ) : ℚ := min 1 (x + c)

/-- A guarded clamped boost: the source's "if cond: x = min(1.0, x + c)". -/
def boostIf (cond : Bool) (x c : ℚ) : ℚ := if cond then clampAdd x c else x

/-- Impact factor before the final clamp
(risk_engine.py, RiskEngine._calculate_impact). -/
def impactPre (policy : PolicyConfig) (action : String) (md : Metadata) : ℚ :=
  let impact : ℚ := 3/10
  let impact :=
    match get_action_rule policy action with
    | some rule =>
      rule.metadata_boosts.foldl
        (fun i kv => boostIf (metaTruthy md kv.1) i kv.2) (max impact rule.impact_floor)
    | none => impact
  let impact := boostIf (metaTruthy md "contains_pii") impact (2/10)
  let impact := boostIf (metaTruthy md "financial") impact (3/10)
  let impact := boostIf (metaTruthy md "irreversible") impact (2/10)
  if metaTruthy md "amount" then
    let amount := metaNum md "amount"
    let impact := boostIf (decide (amount > 1000)) impact (2/10)
    boostIf (decide (amount > 10000)) impact (3/10)
  else impact

/-- Impact factor (risk_engine.py, RiskEngine._calculate_impact). -/
def calculate_impact (policy : PolicyConfig) (action : String) (md : Metadata) : ℚ :=
  min 1 (impactPre policy action md)

/-- The target-keyword step of the breadth computation (risk_engine.py,
lines 173-181 of RiskEngine._calculate_breadth), starting from the base
0.3. A present-but-empty target string is falsy in the source and skips
the keyword scan. -/
def breadthTarget (target : Option String) : ℚ :=
  match target with
  | some t =>
    if t = "" then 3/10
    else
      if ["all", "everyone", "public", "broadcast"].any (fun w => strContains (pyLower t) w) then 9/10
      else if ["group", "team", "list"].any (fun w => strContains (pyLower t) w) then 6/10
      else 3/10
  | none => 3/10

/-- The recipients step of the breadth computation (risk_engine.py, lines
185-192): a truthy recipients entry replaces the running value by 0.9,
0.6 or 0.4 according to its count, unconditionally. -/
def breadthRecipients (md : Metadata) (b : ℚ) : ℚ :=
  if metaTruthy md "recipients" then
    if metaCount md "recipients" > 100 then 9/10
    else if metaCount md "recipients" > 10 then 6/10
    else if metaCount md "recipients" > 1 then 4/10
    else b
  else b

/-- The scope step of the breadth computation (risk_engine.py, lines
194-197). -/
def breadthScope (md : Metadata) (b : ℚ) : ℚ :=
  if metaGet md "scope" = some (MetaValue.vStr "global") then 1
  else if metaGet md "scope" = some (MetaValue.vStr "organization") then 8/10
  else b

/-- Breadth factor before the final clamp
(risk_engine.py, RiskEngine._calculate_breadth). -/
def breadthPre (target : Option String) (md : Metadata) : ℚ :=
  boostIf (metaTruthy md "broadcast" || metaTruthy md "public")
    (breadthScope md (breadthRecipients md (breadthTarget target))) (3/10)

/-- Breadth factor (risk_engine.py, RiskEngine._calculate_breadth). -/
def calculate_breadth (target : Option String) (md : Metadata) : ℚ :=
  min 1 (breadthPre target md)

/-- Probability factor before the final clamp
(risk_engine.py, RiskEngine._calculate_probability); the user_confirmed
check demands the literal value False. -/
def probabilityPre (md : Metadata) : ℚ :=
  let p : ℚ := 3/10
  let p := boostIf (metaGet md "user_confirmed" == some (MetaValue.vBool false)) p (3/10)
  let p := boostIf (metaTruthy md "automated") p (2/10)
  let p := boostIf (metaTruthy md "time_sensitive") p (1/10)
  boostIf (metaTruthy md "off_hours") p (2/10)

/-- Probability factor (risk_engine.py, RiskEngine._calculate_probability). -/
def calculate_probability (md : Metadata) : ℚ :=
  min 1 (probabilityPre md)

/-- A persisted Action row (models.py, Action), with the fields the engine
reads and writes. Timestamps are rationals in seconds. -/
structure ActionRec where
  id : ℕ
  session_id : String
  action : String
  target : Option String := none
  risk_score : ℚ := 0
  approved : Option Bool := none
  approval_timestamp : Option ℚ := none
  approval_channel : Option String := none
  approval_notes : Option String := none
  created_at : ℚ := 0
deriving Repr, DecidableEq

/-- A persisted NearMiss row (models.py, NearMiss), with the fields the
engine reads. -/
structure NearMissRec where
  action : String
  near_miss_type : String := ""
  actual_severity : ℚ
  created_at : ℚ := 0
deriving Repr, DecidableEq

/-- A persisted Session row (models.py, Session). -/
structure SessionRec where
  session_id : String
  risk_budget : ℚ := 8/10
  cumulative_risk : ℚ := 0
deriving Repr, DecidableEq

/-- The database state the engine queries and updates. -/
structure DBState where
  actions : List ActionRec := []
  near_misses : List NearMissRec := []
  sessions : List SessionRec := []
deriving Repr

/-- Lookup of a session row by session id. -/
def findSession (sessions : List SessionRec) (sid : String) : Option SessionRec :=
  sessions.find? (fun s => s.session_id == sid)

/-- Lookup of an action row by id. -/
def findAction (actions : List ActionRec) (action_id : ℕ) : Option ActionRec :=
  actions.find? (fun a => a.id == action_id)

/-- Compound-action detection (risk_engine.py,
RiskEngine._detect_compound_action): a falsy target (absent or the empty
string) short-circuits to (false, 1); otherwise the rows with the same
session id and target created at or after now minus the time window are
counted, and the pair is (true, n + 1) when n is at least min_count - 1,
else (false, 1). -/
def detect_compound_action (cfg : CompoundDetection) (actions : List ActionRec)
    (session_id : String) (target : Option String) (now : ℚ) : Bool × ℕ :=
  match target with
  | none => (false, 1)
  | some t =>
    if t = "" then (false, 1)
    else
      if ((actions.filter
          (fun a => a.session_id == session_id && a.target == some t &&
            decide (a.created_at ≥ now - cfg.time_window_seconds))).length : ℤ)
          ≥ cfg.min_count - 1 then
        ((true, (actions.filter
          (fun a => a.session_id == session_id && a.target == some t &&
            decide (a.created_at ≥ now - cfg.time_window_seconds))).length + 1) : Bool × ℕ)
      else (false, 1)

/-- Near-miss risk multiplier (risk_engine.py,
RiskEngine._get_near_miss_multiplier): rows whose action equals the
current action are fetched; with none the multiplier is 1; otherwise each
row at or above min_severity adds severity * 0.5 * 0.5 ^ (age / half_life)
and the total is capped at max_multiplier. Ages are in seconds, the
half-life is half_life_hours * 3600 seconds, matching the source's
timedelta ratio. The per-row contribution
severity * 0.5 * 0.5 ^ (age / half_life) is named nmContribution. -/
noncomputable def nmContribution (cfg : NearMissConfig) (now : ℚ) (nm : NearMissRec) : ℝ :=
  (nm.actual_severity : ℝ) * (1/2) *
    ((1/2 : ℝ) ^ ((((now - nm.created_at) / (cfg.half_life_hours * 3600) : ℚ) : ℝ)))

/-- The near-miss multiplier loop of
risk_engine.py, RiskEngine._get_near_miss_multiplier. -/
noncomputable def near_miss_multiplier (cfg : NearMissConfig)
    (near_misses : List NearMissRec) (action : String) (now : ℚ) : ℝ :=
  if (near_misses.filter (fun nm => nm.action == action)).isEmpty then 1
  else
    min (cfg.max_multiplier : ℝ)
      ((near_misses.filter (fun nm => nm.action == action)).foldl
        (fun m nm =>
          if nm.actual_severity < cfg.min_severity then m
          else m + nmContribution cfg now nm)
        1)

/-- The tuple an evaluate call returns (risk_engine.py,
RiskEngine.evaluate_action); main.py persists exactly these values into
the new Action row. -/
structure EvalResult where
  impact : ℚ
  breadth : ℚ
  probability : ℝ
  risk_score : ℝ
  needs_checkpoint : Bool
  reason : String
  remaining_budget : ℚ

/-- The checkpoint decision chain (risk_engine.py, lines 92-109 of
RiskEngine.evaluate_action), given the matched rule's always_checkpoint
flag and description, the risk score, the trigger threshold and the
session's cumulative risk and budget. First match wins: action rule,
then high risk score, then session budget; otherwise no checkpoint with
an empty reason. fmtR and fmtQ stand for Python's rendering of a number
into the two reason strings whose exact text no claim pins down; every
theorem below holds for all renderings. -/
noncomputable def checkpoint_decision (fmtR : ℝ → String) (fmtQ : ℚ → String)
    (ruleAlways : Bool) (ruleDesc : String) (risk_score : ℝ)
    (trigger cumulative budget : ℚ) : Bool × String :=
  if ruleAlways then (true, "Action rule: " ++ ruleDesc)
  else if risk_score > (trigger : ℝ) then
    (true, "High risk score: " ++ fmtR risk_score ++ " > " ++ fmtQ trigger)
  else if (cumulative : ℝ) + risk_score > (budget : ℝ) then
    (true, "Would exceed session budget: " ++
      fmtR ((cumulative : ℝ) + risk_score) ++ " > " ++ fmtQ budget)
  else (false, "")

/-- The compound rewrite of the reason string (risk_engine.py, lines
111-112 of RiskEngine.evaluate_action): when the action is compound, the
prefix "Compound action (Nx). " is prepended to a non-empty reason, and a
bare "Compound action detected (Nx)" follows the prefix when the decision
chain produced no reason. -/
def compound_reason (is_compound : Bool) (compound_count : ℕ) (reason : String) : String :=
  if is_compound then
    "Compound action (" ++ toString compound_count ++ "x). " ++
      (if reason ≠ "" then reason
       else "Compound action detected (" ++ toString compound_count ++ "x)")
  else reason

/-- The full evaluate pipeline (risk_engine.py, RiskEngine.evaluate_action).
The session row is the stored one, or a fresh one with the policy's
session budget and zero cumulative risk when the session id is unseen. -/
noncomputable def evaluate_action (fmtR : ℝ → String) (fmtQ : ℚ → String)
    (policy : PolicyConfig) (st : DBState) (session_id action : String)
    (target : Option String) (md : Metadata) (now : ℚ) : EvalResult :=
  let session := (findSession st.sessions session_id).getD
    { session_id := session_id,
      risk_budget := policy.risk_thresholds.session_budget,
      cumulative_risk := 0 }
  let impact := calculate_impact policy action md
  let breadth0 := calculate_breadth target md
  let probability0 := calculate_probability md
  let near_mult := near_miss_multiplier policy.near_miss st.near_misses action now
  let probability : ℝ := min 1 ((probability0 : ℝ) * near_mult)
  let dc := detect_compound_action policy.compound_detection st.actions session_id target now
  let is_compound := dc.1
  let compound_count := dc.2
  let breadth :=
    if is_compound then
      min 1 (breadth0 * (1 + policy.compound_detection.same_resource_boost * (compound_count : ℚ)))
    else breadth0
  let risk_score : ℝ := (impact : ℝ) * (breadth : ℝ) * probability
  let rule := get_action_rule policy action
  let base := checkpoint_decision fmtR fmtQ
    ((rule.map ActionRule.always_checkpoint).getD false)
    ((rule.map ActionRule.description).getD "")
    risk_score policy.risk_thresholds.checkpoint_trigger
    session.cumulative_risk session.risk_budget
  { impact := impact, breadth := breadth, probability := probability,
    risk_score := risk_score, needs_checkpoint := base.1,
    reason := compound_reason is_compound compound_count base.2,
    remaining_budget := session.risk_budget - session.cumulative_risk }

/-- Recording an approval decision (risk_engine.py,
RiskEngine.record_approval): an unknown action id raises (modelled as the
error branch); otherwise the approval fields are written, and when
approved the action's risk score is added to its session's cumulative
risk. The source performs no check that the action is still undecided. -/
def record_approval (st : DBState) (action_id : ℕ) (approved : Bool)
    (channel : String) (notes : Option String) (now : ℚ) : Except String DBState :=
  match findAction st.actions action_id with
  | none => Except.error ("Action " ++ toString action_id ++ " not found")
  | some act =>
    let actions := st.actions.map (fun a =>
      if a.id == action_id then
        { a with approved := some approved, approval_timestamp := some now,
                 approval_channel := some channel, approval_notes := notes }
      else a)
    let sessions :=
      if approved then
        st.sessions.map (fun s =>
          if s.session_id == act.session_id then
            { s with cumulative_risk := s.cumulative_risk + act.risk_score }
          else s)
      else st.sessions
    Except.ok { st with actions := actions, sessions := sessions }

/-- The closed set of near-miss types documented by the source
(models.py, NearMissType; main.py, the near-miss endpoint docstring). -/
def nearMissTypes : List String :=
  ["boundary_violation", "resource_overuse", "timing_anomaly",
   "permission_escalation", "data_exposure", "cascade_trigger", "policy_drift"]

/-- A near-miss request body (schemas.py, NearMissRequest). -/
structure NearMissRequest where
  session_id : String
  action : String
  near_miss_type : String
  actual_severity : ℚ
  target : Option String := none
deriving Repr, DecidableEq

/-- The validation Pydantic actually performs on a near-miss request
(schemas.py, NearMissRequest): actual_severity must lie in [0, 1]; the
near_miss_type field is a plain string with no constraint. -/
def validNearMissRequest (r : NearMissRequest) : Bool :=
  decide (0 ≤ r.actual_severity) && decide (r.actual_severity ≤ 1)

/-- The near-miss endpoint (main.py, record_near_miss, composed with the
schema validation): a request failing validation is rejected with 422
(none); otherwise a NearMiss row is inserted
(risk_engine.py, RiskEngine.record_near_miss). -/
def near_miss_endpoint (st : DBState) (r : NearMissRequest) (now : ℚ) : Option DBState :=
  if validNearMissRequest r then
    some { st with near_misses := st.near_misses ++
      [{ action := r.action, near_miss_type := r.near_miss_type,
         actual_severity := r.actual_severity, created_at := now }] }
  else none

/-- The budget endpoint's response body (schemas.py, BudgetResponse). -/
structure BudgetResponse where
  session_id : String
  risk_budget : ℚ
  cumulative_risk : ℚ
  remaining_budget : ℚ
  utilization_percent : ℚ
deriving Repr, DecidableEq

/-- The budget endpoint (main.py, get_budget): 404 (the error branch) when
no session row has the id; otherwise the utilization percentage is
cumulative / budget * 100, guarded to 0 when the budget is not positive. -/
def get_budget (st : DBState) (session_id : String) : Except String BudgetResponse :=
  match findSession st.sessions session_id with
  | none => Except.error "Session not found"
  | some s =>
    Except.ok
      { session_id := session_id, risk_budget := s.risk_budget,
        cumulative_risk := s.cumulative_risk,
        remaining_budget := s.risk_budget - s.cumulative_risk,
        utilization_percent :=
          if s.risk_budget > 0 then s.cumulative_risk / s.risk_budget * 100 else 0 }

/-! ### Bounds of the scorer components -/

lemma boostIf_lb {lb x c : ℚ} (b : Bool) (hlb : lb ≤ 1) (hx : lb ≤ x) (hc : 0 ≤ c) :
    lb ≤ boostIf b x c := by
  cases b with
  | false => exact hx
  | true => exact le_min hlb (by linarith)

lemma boostIf_ub {x c : ℚ} (b : Bool) (hx : x ≤ 1) : boostIf b x c ≤ 1 := by
  cases b with
  | false => exact hx
  | true => exact min_le_left _ _

lemma foldl_boostIf_lb (md : Metadata) (l : List (String × ℚ)) :
    ∀ i : ℚ, 3/10 ≤ i → (∀ kv ∈ l, 0 ≤ kv.2) →
      3/10 ≤ l.foldl (fun i kv => boostIf (metaTruthy md kv.1) i kv.2) i := by
  induction l with
  | nil => intro i hi _; exact hi
  | cons kv tl ih =>
    intro i hi hl
    simp only [List.foldl_cons]
    refine ih _ (boostIf_lb _ (by norm_num) hi (hl kv (by simp))) ?_
    intro kv2 h2
    exact hl kv2 (by simp [h2])

lemma impactPre_lb (policy : PolicyConfig) (action : String) (md : Metadata)
    (hboost : ∀ r ∈ policy.action_rules, ∀ kv ∈ r.metadata_boosts, 0 ≤ kv.2) :
    3/10 ≤ impactPre policy action md := by
  unfold impactPre
  rcases hr : get_action_rule policy action with _ | rule <;> simp only [hr]
  · split
    · exact boostIf_lb _ (by norm_num)
        (boostIf_lb _ (by norm_num)
          (boostIf_lb _ (by norm_num)
            (boostIf_lb _ (by norm_num)
              (boostIf_lb _ (by norm_num) (by norm_num) (by norm_num))
              (by norm_num)) (by norm_num)) (by norm_num)) (by norm_num)
    · exact boostIf_lb _ (by norm_num)
        (boostIf_lb _ (by norm_num)
          (boostIf_lb _ (by norm_num) (by norm_num) (by norm_num))
          (by norm_num)) (by norm_num)
  · have hmem : rule ∈ policy.action_rules := List.mem_of_find?_eq_some hr
    have hfold : 3/10 ≤ rule.metadata_boosts.foldl
        (fun i kv => boostIf (metaTruthy md kv.1) i kv.2) (max (3/10) rule.impact_floor) :=
      foldl_boostIf_lb md _ _ (le_max_left _ _) (hboost rule hmem)
    split
    · exact boostIf_lb _ (by norm_num)
        (boostIf_lb _ (by norm_num)
          (boostIf_lb _ (by norm_num)
            (boostIf_lb _ (by norm_num)
              (boostIf_lb _ (by norm_num) hfold (by norm_num))
              (by norm_num)) (by norm_num)) (by norm_num)) (by norm_num)
    · exact boostIf_lb _ (by norm_num)
        (boostIf_lb _ (by norm_num)
          (boostIf_lb _ (by norm_num) hfold (by norm_num))
          (by norm_num)) (by norm_num)

lemma calculate_impact_lb (policy : PolicyConfig) (action : String) (md : Metadata)
    (hboost : ∀ r ∈ policy.action_rules, ∀ kv ∈ r.metadata_boosts, 0 ≤ kv.2) :
    3/10 ≤ calculate_impact policy action md :=
  le_min (by norm_num) (impactPre_lb policy action md hboost)

lemma calculate_impact_ub (policy : PolicyConfig) (action : String) (md : Metadata) :
    calculate_impact policy action md ≤ 1 :=
  min_le_left _ _

lemma breadthTarget_lb (target : Option String) : 3/10 ≤ breadthTarget target := by
  unfold breadthTarget
  rcases target with _ | t
  · norm_num
  · simp only []
    split
    · norm_num
    · split
      · norm_num
      · split <;> norm_num

lemma breadthRecipients_lb (md : Metadata) {b : ℚ} (hb : 3/10 ≤ b) :
    3/10 ≤ breadthRecipients md b := by
  unfold breadthRecipients
  split
  · split
    · norm_num
    · split
      · norm_num
      · split <;> [norm_num; exact hb]
  · exact hb

lemma breadthScope_lb (md : Metadata) {b : ℚ} (hb : 3/10 ≤ b) :
    3/10 ≤ breadthScope md b := by
  unfold breadthScope
  split
  · norm_num
  · split <;> [norm_num; exact hb]

lemma breadthPre_lb (target : Option String) (md : Metadata) :
    3/10 ≤ breadthPre target md := by
  unfold breadthPre
  exact boostIf_lb _ (by norm_num)
    (breadthScope_lb md (breadthRecipients_lb md (breadthTarget_lb target))) (by norm_num)

lemma calculate_breadth_lb (target : Option String) (md : Metadata) :
    3/10 ≤ calculate_breadth target md :=
  le_min (by norm_num) (breadthPre_lb target md)

lemma calculate_breadth_ub (target : Option String) (md : Metadata) :
    calculate_breadth target md ≤ 1 :=
  min_le_left _ _

lemma probabilityPre_lb (md : Metadata) : 3/10 ≤ probabilityPre md := by
  unfold probabilityPre
  exact boostIf_lb _ (by norm_num)
    (boostIf_lb _ (by norm_num)
      (boostIf_lb _ (by norm_num)
        (boostIf_lb _ (by norm_num) (by norm_num) (by norm_num)) (by norm_num))
      (by norm_num)) (by norm_num)

lemma calculate_probability_lb (md : Metadata) : 3/10 ≤ calculate_probability md :=
  le_min (by norm_num) (probabilityPre_lb md)

lemma calculate_probability_ub (md : Metadata) : calculate_probability md ≤ 1 :=
  min_le_left _ _

/-! ### The near-miss multiplier -/

lemma nmContribution_nonneg (cfg : NearMissConfig) (now : ℚ) (nm : NearMissRec)
    (hsev : 0 ≤ nm.actual_severity) : 0 ≤ nmContribution cfg now nm := by
  unfold nmContribution
  have h1 : (0 : ℝ) ≤ (nm.actual_severity : ℝ) := by exact_mod_cast hsev
  have h2 : (0 : ℝ) ≤ (1/2 : ℝ) ^ ((((now - nm.created_at) / (cfg.half_life_hours * 3600) : ℚ) : ℝ)) :=
    Real.rpow_nonneg (by norm_num) _
  positivity

lemma foldl_skip_eq_sum (cfg : NearMissConfig) (now : ℚ) (l : List NearMissRec) :
    ∀ a : ℝ, l.foldl
        (fun m nm =>
          if nm.actual_severity < cfg.min_severity then m
          else m + nmContribution cfg now nm) a
      = a + ((l.filter (fun nm => decide (cfg.min_severity ≤ nm.actual_severity))).map
          (nmContribution cfg now)).sum := by
  induction l with
  | nil => intro a; simp
  | cons nm tl ih =>
    intro a
    by_cases hc : nm.actual_severity < cfg.min_severity
    · have hd : ¬ cfg.min_severity ≤ nm.actual_severity := not_le.mpr hc
      simp only [List.foldl_cons, if_pos hc, List.filter_cons, decide_eq_true_eq]
      rw [if_neg hd]
      exact ih a
    · have hd : cfg.min_severity ≤ nm.actual_severity := not_lt.mp hc
      simp only [List.foldl_cons, if_neg hc, List.filter_cons, decide_eq_true_eq]
      rw [if_pos hd, ih (a + nmContribution cfg now nm)]
      simp [add_assoc]

lemma one_le_near_miss_multiplier (cfg : NearMissConfig) (nms : List NearMissRec)
    (action : String) (now : ℚ)
    (hsev : ∀ nm ∈ nms, 0 ≤ nm.actual_severity)
    (hmax : 1 ≤ cfg.max_multiplier) :
    1 ≤ near_miss_multiplier cfg nms action now := by
  unfold near_miss_multiplier
  split
  · norm_num
  · refine le_min (by exact_mod_cast hmax) ?_
    rw [foldl_skip_eq_sum]
    have hsum : 0 ≤ (((nms.filter (fun nm => nm.action == action)).filter
        (fun nm => decide (cfg.min_severity ≤ nm.actual_severity))).map
          (nmContribution cfg now)).sum := by
      apply List.sum_nonneg
      intro x hx
      rcases List.mem_map.mp hx with ⟨nm, hnm, hrfl⟩
      have hmem : nm ∈ nms :=
        List.mem_of_mem_filter (List.mem_of_mem_filter hnm)
      exact hrfl ▸ nmContribution_nonneg cfg now nm (hsev nm hmem)
    linarith

lemma near_miss_multiplier_le_max (cfg : NearMissConfig) (nms : List NearMissRec)
    (action : String) (now : ℚ) (hmax : 1 ≤ cfg.max_multiplier) :
    near_miss_multiplier cfg nms action now ≤ (cfg.max_multiplier : ℝ) := by
  unfold near_miss_multiplier
  split
  · exact_mod_cast hmax
  · exact min_le_left _ _

/-- The near-miss multiplier as the spec's formula states it (spec section
4.2): 1 plus the sum, over the rows matching the action whose
actual_severity is at least min_severity, of
severity * 0.5 * 0.5 ^ (age / half_life), capped at max_multiplier.
Written from the spec's words, to be compared with the source's loop. -/
noncomputable def spec_near_miss_multiplier (cfg : NearMissConfig)
    (near_misses : List NearMissRec) (action : String) (now : ℚ) : ℝ :=
  min (cfg.max_multiplier : ℝ)
    (1 + ((near_misses.filter (fun nm =>
        nm.action == action && decide (cfg.min_severity ≤ nm.actual_severity))).map
      (nmContribution cfg now)).sum)

lemma near_miss_multiplier_eq_spec (cfg : NearMissConfig) (nms : List NearMissRec)
    (action : String) (now : ℚ) (hmax : 1 ≤ cfg.max_multiplier) :
    near_miss_multiplier cfg nms action now = spec_near_miss_multiplier cfg nms action now := by
  unfold near_miss_multiplier spec_near_miss_multiplier
  rw [← List.filter_filter]
  split
  · rename_i h
    rw [List.isEmpty_iff] at h
    rw [List.filter_comm, h]
    simp only [List.filter_nil, List.map_nil, List.sum_nil, add_zero]
    exact (min_eq_right (by exact_mod_cast hmax)).symm
  · rw [foldl_skip_eq_sum, List.filter_comm]

/-! ### Unfolding equations for the evaluate pipeline -/

lemma evaluate_impact_eq (fmtR : ℝ → String) (fmtQ : ℚ → String) (policy : PolicyConfig)
    (st : DBState) (session_id action : String) (target : Option String)
    (md : Metadata) (now : ℚ) :
    (evaluate_action fmtR fmtQ policy st session_id action target md now).impact
      = calculate_impact policy action md := rfl

lemma evaluate_probability_eq (fmtR : ℝ → String) (fmtQ : ℚ → String) (policy : PolicyConfig)
    (st : DBState) (session_id action : String) (target : Option String)
    (md : Metadata) (now : ℚ) :
    (evaluate_action fmtR fmtQ policy st session_id action target md now).probability
      = min 1 ((calculate_probability md : ℝ) *
          near_miss_multiplier policy.near_miss st.near_misses action now) := rfl

lemma evaluate_breadth_eq (fmtR : ℝ → String) (fmtQ : ℚ → String) (policy : PolicyConfig)
    (st : DBState) (session_id action : String) (target : Option String)
    (md : Metadata) (now : ℚ) :
    (evaluate_action fmtR fmtQ policy st session_id action target md now).breadth
      = (if (detect_compound_action policy.compound_detection st.actions session_id target now).1 then
          min 1 (calculate_breadth target md *
            (1 + policy.compound_detection.same_resource_boost *
              ((detect_compound_action policy.compound_detection st.actions session_id target now).2 : ℚ)))
        else calculate_breadth target md) := rfl

lemma evaluate_risk_eq (fmtR : ℝ → String) (fmtQ : ℚ → String) (policy : PolicyConfig)
    (st : DBState) (session_id action : String) (target : Option String)
    (md : Metadata) (now : ℚ) :
    (evaluate_action fmtR fmtQ policy st session_id action target md now).risk_score
      = ((evaluate_action fmtR fmtQ policy st session_id action target md now).impact : ℝ) *
        ((evaluate_action fmtR fmtQ policy st session_id action target md now).breadth : ℝ) *
        (evaluate_action fmtR fmtQ policy st session_id action target md now).probability := rfl

/-- The session row evaluate reads: the stored one, or a fresh one from
the policy budget. -/
def sessionOf (policy : PolicyConfig) (st : DBState) (session_id : String) : SessionRec :=
  (findSession st.sessions session_id).getD
    { session_id := session_id,
      risk_budget := policy.risk_thresholds.session_budget,
      cumulative_risk := 0 }

lemma evaluate_needs_eq (fmtR : ℝ → String) (fmtQ : ℚ → String) (policy : PolicyConfig)
    (st : DBState) (session_id action : String) (target : Option String)
    (md : Metadata) (now : ℚ) :
    (evaluate_action fmtR fmtQ policy st session_id action target md now).needs_checkpoint
      = (checkpoint_decision fmtR fmtQ
          (((get_action_rule policy action).map ActionRule.always_checkpoint).getD false)
          (((get_action_rule policy action).map ActionRule.description).getD "")
          (evaluate_action fmtR fmtQ policy st session_id action target md now).risk_score
          policy.risk_thresholds.checkpoint_trigger
          (sessionOf policy st session_id).cumulative_risk
          (sessionOf policy st session_id).risk_budget).1 := rfl

lemma evaluate_reason_eq (fmtR : ℝ → String) (fmtQ : ℚ → String) (policy : PolicyConfig)
    (st : DBState) (session_id action : String) (target : Option String)
    (md : Metadata) (now : ℚ) :
    (evaluate_action fmtR fmtQ policy st session_id action target md now).reason
      = compound_reason
          (detect_compound_action policy.compound_detection st.actions session_id target now).1
          (detect_compound_action policy.compound_detection st.actions session_id target now).2
          (checkpoint_decision fmtR fmtQ
            (((get_action_rule policy action).map ActionRule.always_checkpoint).getD false)
            (((get_action_rule policy action).map ActionRule.description).getD "")
            (evaluate_action fmtR fmtQ policy st session_id action target md now).risk_score
            policy.risk_thresholds.checkpoint_trigger
            (sessionOf policy st session_id).cumulative_risk
            (sessionOf policy st session_id).risk_budget).2 := rfl

/-! ### Bounds of the evaluate outputs -/

lemma evaluate_breadth_lb (fmtR : ℝ → String) (fmtQ : ℚ → String) (policy : PolicyConfig)
    (st : DBState) (session_id action : String) (target : Option String)
    (md : Metadata) (now : ℚ)
    (hsrb : 0 ≤ policy.compound_detection.same_resource_boost) :
    3/10 ≤ (evaluate_action fmtR fmtQ policy st session_id action target md now).breadth := by
  rw [evaluate_breadth_eq]
  split
  · refine le_min (by norm_num) ?_
    have hb := calculate_breadth_lb target md
    have hfac : (1 : ℚ) ≤ 1 + policy.compound_detection.same_resource_boost *
        ((detect_compound_action policy.compound_detection st.actions session_id target now).2 : ℚ) := by
      have : (0 : ℚ) ≤ policy.compound_detection.same_resource_boost *
          ((detect_compound_action policy.compound_detection st.actions session_id target now).2 : ℚ) :=
        mul_nonneg hsrb (by positivity)
      linarith
    calc (3/10 : ℚ) ≤ calculate_breadth target md := hb
    _ = calculate_breadth target md * 1 := (mul_one _).symm
    _ ≤ calculate_breadth target md *
        (1 + policy.compound_detection.same_resource_boost *
          ((detect_compound_action policy.compound_detection st.actions session_id target now).2 : ℚ)) :=
      mul_le_mul_of_nonneg_left hfac (by linarith)
  · exact calculate_breadth_lb target md

lemma evaluate_breadth_ub (fmtR : ℝ → String) (fmtQ : ℚ → String) (policy : PolicyConfig)
    (st : DBState) (session_id action : String) (target : Option String)
    (md : Metadata) (now : ℚ) :
    (evaluate_action fmtR fmtQ policy st session_id action target md now).breadth ≤ 1 := by
  rw [evaluate_breadth_eq]
  split
  · exact min_le_left _ _
  · exact calculate_breadth_ub target md

lemma evaluate_probability_lb (fmtR : ℝ → String) (fmtQ : ℚ → String) (policy : PolicyConfig)
    (st : DBState) (session_id action : String) (target : Option String)
    (md : Metadata) (now : ℚ)
    (hsev : ∀ nm ∈ st.near_misses, 0 ≤ nm.actual_severity)
    (hmax : 1 ≤ policy.near_miss.max_multiplier) :
    (3/10 : ℝ) ≤ (evaluate_action fmtR fmtQ policy st session_id action target md now).probability := by
  rw [evaluate_probability_eq]
  refine le_min (by norm_num) ?_
  have hp := calculate_probability_lb md
  have hm := one_le_near_miss_multiplier policy.near_miss st.near_misses action now hsev hmax
  have hp' : (3/10 : ℝ) ≤ (calculate_probability md : ℝ) := by
    have h : ((3/10 : ℚ) : ℝ) ≤ (calculate_probability md : ℝ) := Rat.cast_le.mpr hp
    push_cast at h
    exact h
  calc (3/10 : ℝ) ≤ (calculate_probability md : ℝ) := hp'
  _ = (calculate_probability md : ℝ) * 1 := (mul_one _).symm
  _ ≤ (calculate_probability md : ℝ) * near_miss_multiplier policy.near_miss st.near_misses action now :=
    mul_le_mul_of_nonneg_left hm (by linarith)

lemma evaluate_probability_ub (fmtR : ℝ → String) (fmtQ : ℚ → String) (policy : PolicyConfig)
    (st : DBState) (session_id action : String) (target : Option String)
    (md : Metadata) (now : ℚ) :
    (evaluate_action fmtR fmtQ policy st session_id action target md now).probability ≤ 1 := by
  rw [evaluate_probability_eq]
  exact min_le_left _ _

lemma evaluate_risk_pos (fmtR : ℝ → String) (fmtQ : ℚ → String) (policy : PolicyConfig)
    (st : DBState) (session_id action : String) (target : Option String)
    (md : Metadata) (now : ℚ)
    (hboost : ∀ r ∈ policy.action_rules, ∀ kv ∈ r.metadata_boosts, 0 ≤ kv.2)
    (hsrb : 0 ≤ policy.compound_detection.same_resource_boost)
    (hsev : ∀ nm ∈ st.near_misses, 0 ≤ nm.actual_severity)
    (hmax : 1 ≤ policy.near_miss.max_multiplier) :
    0 < (evaluate_action fmtR fmtQ policy st session_id action target md now).risk_score := by
  rw [evaluate_risk_eq]
  have hi := calculate_impact_lb policy action md hboost
  have hb := evaluate_breadth_lb fmtR fmtQ policy st session_id action target md now hsrb
  have hp := evaluate_probability_lb fmtR fmtQ policy st session_id action target md now hsev hmax
  have hi' : (0 : ℝ) < ((evaluate_action fmtR fmtQ policy st session_id action target md now).impact : ℝ) := by
    rw [evaluate_impact_eq]
    exact_mod_cast lt_of_lt_of_le (by norm_num) hi
  have hb' : (0 : ℝ) < ((evaluate_action fmtR fmtQ policy st session_id action target md now).breadth : ℝ) := by
    exact_mod_cast lt_of_lt_of_le (by norm_num) hb
  have hp' : (0 : ℝ) < (evaluate_action fmtR fmtQ policy st session_id action target md now).probability :=
    lt_of_lt_of_le (by norm_num) hp
  positivity

lemma evaluate_risk_ub (fmtR : ℝ → String) (fmtQ : ℚ → String) (policy : PolicyConfig)
    (st : DBState) (session_id action : String) (target : Option String)
    (md : Metadata) (now : ℚ)
    (hboost : ∀ r ∈ policy.action_rules, ∀ kv ∈ r.metadata_boosts, 0 ≤ kv.2)
    (hsrb : 0 ≤ policy.compound_detection.same_resource_boost)
    (hsev : ∀ nm ∈ st.near_misses, 0 ≤ nm.actual_severity)
    (hmax : 1 ≤ policy.near_miss.max_multiplier) :
    (evaluate_action fmtR fmtQ policy st session_id action target md now).risk_score ≤ 1 := by
  rw [evaluate_risk_eq]
  have hi0 := calculate_impact_lb policy action md hboost
  have hi1 := calculate_impact_ub policy action md
  have hb0 := evaluate_breadth_lb fmtR fmtQ policy st session_id action target md now hsrb
  have hb1 := evaluate_breadth_ub fmtR fmtQ policy st session_id action target md now
  have hp0 := evaluate_probability_lb fmtR fmtQ policy st session_id action target md now hsev hmax
  have hp1 := evaluate_probability_ub fmtR fmtQ policy st session_id action target md now
  rw [evaluate_impact_eq]
  have hib : ((calculate_impact policy action md : ℝ)) *
      ((evaluate_action fmtR fmtQ policy st session_id action target md now).breadth : ℝ) ≤ 1 := by
    apply mul_le_one₀
    · exact_mod_cast hi1
    · exact_mod_cast le_trans (by norm_num) hb0
    · exact_mod_cast hb1
  apply mul_le_one₀ hib (le_trans (by norm_num) hp0) hp1

/-! ### Claim theorems -/

/-- A store with one evaluated action (risk score 0.027) and its session,
used to exercise the approval path at a concrete input. -/
def approvalStore : DBState :=
  { actions := [{ id := 1, session_id := "s1", action := "transfer_funds",
                  target := none, risk_score := 27/1000 }],
    sessions := [{ session_id := "s1", risk_budget := 8/10, cumulative_risk := 0 }] }

/-- Claim C1, evaluated at the failing input: record_approval accepts a
second approve(approved=true) call on the same action id (both calls
return ok, no error is raised) and adds the action's risk score to the
session's cumulative risk a second time, so the session is
double-charged: after two approvals of an action with risk score 27/1000
the session's cumulative risk is 27/500, twice the score. This is the
behaviour the claim rules out. -/
theorem approve_twice_double_charges :
    ∃ st1 st2 : DBState,
      record_approval approvalStore 1 true "rest" none 10 = Except.ok st1 ∧
      record_approval st1 1 true "rest" none 20 = Except.ok st2 ∧
      (findSession st1.sessions "s1").map SessionRec.cumulative_risk = some (27/1000) ∧
      (findSession st2.sessions "s1").map SessionRec.cumulative_risk = some (27/500) := by
  refine ⟨_, _, rfl, rfl, ?_, ?_⟩
  · simp [approvalStore, findSession, record_approval]
  · simp [approvalStore, findSession, record_approval]
    norm_num

/-- A near-miss request whose type tag is outside the documented closed
set. -/
def unknownTypeRequest : NearMissRequest :=
  { session_id := "s1", action := "deploy",
    near_miss_type := "totally_unknown", actual_severity := 1/2 }

/-- Claim C8, evaluated at the failing input: the schema places no
constraint on near_miss_type, so a request whose type tag is outside the
documented closed set passes validation and a NearMiss row is created,
instead of the 422 rejection the claim states. -/
theorem unknown_near_miss_type_recorded :
    "totally_unknown" ∉ nearMissTypes ∧
    near_miss_endpoint {} unknownTypeRequest 0 =
      some { near_misses := [{ action := "deploy", near_miss_type := "totally_unknown",
                               actual_severity := 1/2, created_at := 0 }] } := by
  constructor
  · decide
  · have h : validNearMissRequest unknownTypeRequest = true := by
      unfold validNearMissRequest unknownTypeRequest
      norm_num
    simp only [near_miss_endpoint, h, if_true]
    rfl

/-- Claim C10: for an existing session with risk_budget = 0 the budget
endpoint succeeds and reports utilization_percent = 0 (the division is
guarded), and the 404 error branch is taken exactly when no session row
carries the requested id. -/
theorem budget_zero_utilization_and_404
    (st : DBState) (sid : String) :
    (∀ s : SessionRec, findSession st.sessions sid = some s → s.risk_budget = 0 →
      get_budget st sid = Except.ok
        { session_id := sid, risk_budget := s.risk_budget,
          cumulative_risk := s.cumulative_risk,
          remaining_budget := s.risk_budget - s.cumulative_risk,
          utilization_percent := 0 }) ∧
    (get_budget st sid = Except.error "Session not found" ↔
      findSession st.sessions sid = none) := by
  constructor
  · intro s hs hb
    unfold get_budget
    rw [hs]
    have h : ¬ s.risk_budget > 0 := by rw [hb]; norm_num
    simp [h]
  · unfold get_budget
    rcases h : findSession st.sessions sid with _ | s <;> simp [h]

/-- A store holding one session whose risk budget is zero. -/
def zeroBudgetStore : DBState :=
  { sessions := [{ session_id := "s9", risk_budget := 0, cumulative_risk := 0 }] }

/-- Witness for C10: the zero-budget session answers with utilization 0,
and an unseen id answers with the 404 error. -/
theorem budget_zero_utilization_and_404_witness :
    get_budget zeroBudgetStore "s9" = Except.ok
      { session_id := "s9", risk_budget := 0, cumulative_risk := 0,
        remaining_budget := 0 - 0, utilization_percent := 0 } ∧
    get_budget zeroBudgetStore "nope" = Except.error "Session not found" := by
  constructor
  · exact (budget_zero_utilization_and_404 zeroBudgetStore "s9").1 _ rfl rfl
  · exact (budget_zero_utilization_and_404 zeroBudgetStore "nope").2.mpr rfl

/-- Claim C4: with no target (or the falsy empty string) compound
detection reports (false, 1); with a non-empty target and n the number of
prior actions of the same session and target created within the time
window, it reports (true, n + 1) exactly when n is at least
min_count - 1, else (false, 1); and evaluate multiplies the breadth
component by (1 + same_resource_boost * compound_count), clamped to 1,
exactly when the action is compound. -/
theorem compound_detection_and_breadth_boost
    (cfg : CompoundDetection) (actions : List ActionRec) (sid : String) (now : ℚ) :
    (detect_compound_action cfg actions sid none now = (false, 1)) ∧
    (detect_compound_action cfg actions sid (some "") now = (false, 1)) ∧
    (∀ t : String, t ≠ "" →
      detect_compound_action cfg actions sid (some t) now =
        (if ((actions.filter
              (fun a => a.session_id == sid && a.target == some t &&
                decide (a.created_at ≥ now - cfg.time_window_seconds))).length : ℤ)
            ≥ cfg.min_count - 1 then
          ((true, (actions.filter
              (fun a => a.session_id == sid && a.target == some t &&
                decide (a.created_at ≥ now - cfg.time_window_seconds))).length + 1) : Bool × ℕ)
        else (false, 1))) ∧
    (∀ (fmtR : ℝ → String) (fmtQ : ℚ → String) (policy : PolicyConfig) (st : DBState)
        (session_id action : String) (target : Option String) (md : Metadata) (now2 : ℚ),
      (evaluate_action fmtR fmtQ policy st session_id action target md now2).breadth
        = (if (detect_compound_action policy.compound_detection st.actions session_id target now2).1 then
            min 1 (calculate_breadth target md *
              (1 + policy.compound_detection.same_resource_boost *
                ((detect_compound_action policy.compound_detection st.actions session_id target now2).2 : ℚ)))
          else calculate_breadth target md)) := by
  refine ⟨rfl, rfl, ?_, ?_⟩
  · intro t ht
    simp only [detect_compound_action]
    rw [if_neg ht]
  · intro fmtR fmtQ policy st session_id action target md now2
    exact evaluate_breadth_eq fmtR fmtQ policy st session_id action target md now2

lemma breadthTarget_all_staff : breadthTarget (some "all-staff") = 9/10 := by
  simp only [breadthTarget]
  rw [if_neg (by decide : ¬ ("all-staff" = "")),
    if_pos (by decide : (["all", "everyone", "public", "broadcast"].any
      (fun w => strContains (pyLower "all-staff") w)) = true)]

lemma calculate_breadth_plain (target : Option String) (md : Metadata)
    (hscope : metaGet md "scope" = none)
    (hbc : metaTruthy md "broadcast" = false)
    (hpub : metaTruthy md "public" = false) :
    calculate_breadth target md = min 1 (breadthRecipients md (breadthTarget target)) := by
  unfold calculate_breadth breadthPre boostIf breadthScope
  rw [hbc, hpub, hscope]
  simp

/-- Claim C6 counterexample: with target "all-staff" (keyword breadth
0.9) and metadata recipients = 5, the breadth is 0.4, not 0.9: the
recipients count overrides the larger keyword value, so breadth is not
0.9 regardless of metadata, and a smaller recipients value does
override a larger keyword value. -/
theorem all_staff_recipients_overrides_downward :
    calculate_breadth (some "all-staff") [("recipients", MetaValue.vNum 5)] = 2/5 ∧
    ¬ calculate_breadth (some "all-staff") [("recipients", MetaValue.vNum 5)] = 9/10 := by
  have h : calculate_breadth (some "all-staff") [("recipients", MetaValue.vNum 5)] = 2/5 := by
    rw [calculate_breadth_plain (some "all-staff") [("recipients", MetaValue.vNum 5)]
      (by decide) (by decide) (by decide)]
    rw [breadthTarget_all_staff]
    unfold breadthRecipients
    rw [if_pos (by decide : metaTruthy [("recipients", MetaValue.vNum 5)] "recipients" = true),
      if_neg (by decide : ¬ metaCount [("recipients", MetaValue.vNum 5)] "recipients" > 100),
      if_neg (by decide : ¬ metaCount [("recipients", MetaValue.vNum 5)] "recipients" > 10),
      if_pos (by decide : metaCount [("recipients", MetaValue.vNum 5)] "recipients" > 1)]
    norm_num
  exact ⟨h, by rw [h]; norm_num⟩

/-- Claim C6 as amended: the recipients count sets breadth to 0.9 / 0.6 /
0.4 (for counts > 100 / > 10 / > 1) unconditionally, for every target,
also when the target-keyword value is larger; breadth for target
"all-staff" is 0.9 only when the metadata supplies no truthy recipients
entry (and no scope, broadcast or public override). -/
theorem recipients_override_breadth (md : Metadata)
    (hscope : metaGet md "scope" = none)
    (hbc : metaTruthy md "broadcast" = false)
    (hpub : metaTruthy md "public" = false) :
    (∀ target : Option String, metaTruthy md "recipients" = true →
      metaCount md "recipients" > 100 → calculate_breadth target md = 9/10) ∧
    (∀ target : Option String, metaTruthy md "recipients" = true →
      ¬ metaCount md "recipients" > 100 → metaCount md "recipients" > 10 →
      calculate_breadth target md = 3/5) ∧
    (∀ target : Option String, metaTruthy md "recipients" = true →
      ¬ metaCount md "recipients" > 100 → ¬ metaCount md "recipients" > 10 →
      metaCount md "recipients" > 1 → calculate_breadth target md = 2/5) ∧
    (metaTruthy md "recipients" = false →
      calculate_breadth (some "all-staff") md = 9/10) := by
  refine ⟨?_, ?_, ?_, ?_⟩
  · intro target h1 h2
    rw [calculate_breadth_plain target md hscope hbc hpub]
    unfold breadthRecipients
    rw [if_pos h1, if_pos h2]
    norm_num
  · intro target h1 h2 h3
    rw [calculate_breadth_plain target md hscope hbc hpub]
    unfold breadthRecipients
    rw [if_pos h1, if_neg h2, if_pos h3]
    norm_num
  · intro target h1 h2 h3 h4
    rw [calculate_breadth_plain target md hscope hbc hpub]
    unfold breadthRecipients
    rw [if_pos h1, if_neg h2, if_neg h3, if_pos h4]
    norm_num
  · intro h1
    rw [calculate_breadth_plain (some "all-staff") md hscope hbc hpub]
    unfold breadthRecipients
    rw [h1]
    simp only [Bool.false_eq_true, if_false]
    rw [breadthTarget_all_staff]
    norm_num

/-- Witness for C6 at the concrete metadata of the counterexample:
recipients = 5 gives breadth 0.4 for the target "all-staff". -/
theorem recipients_override_breadth_witness :
    calculate_breadth (some "all-staff") [("recipients", MetaValue.vNum 5)] = 2/5 := by
  refine (recipients_override_breadth [("recipients", MetaValue.vNum 5)]
    (by decide) (by decide) (by decide)).2.2.1 (some "all-staff") ?_ ?_ ?_ ?_ <;> decide

/-- Claim C2: for every evaluate call, the returned risk score equals
the product impact * breadth * probability of the returned components
(exactly, hence within any tolerance), and each of impact, breadth,
probability and risk_score lies in [0, 1]. The hypotheses state the
well-formedness the policy file and the validated near-miss API
guarantee: non-negative rule metadata boosts, a non-negative compound
boost, severities in store at least 0 and a max multiplier at least 1
(default 2). main.py persists exactly the returned tuple into the new
Action row, so the persisted values satisfy the same equations. -/
theorem risk_score_product_and_unit_ranges
    (fmtR : ℝ → String) (fmtQ : ℚ → String) (policy : PolicyConfig) (st : DBState)
    (session_id action : String) (target : Option String) (md : Metadata) (now : ℚ)
    (hboost : ∀ r ∈ policy.action_rules, ∀ kv ∈ r.metadata_boosts, 0 ≤ kv.2)
    (hsrb : 0 ≤ policy.compound_detection.same_resource_boost)
    (hsev : ∀ nm ∈ st.near_misses, 0 ≤ nm.actual_severity)
    (hmax : 1 ≤ policy.near_miss.max_multiplier) :
    ∀ r : EvalResult, r = evaluate_action fmtR fmtQ policy st session_id action target md now →
      r.risk_score = (r.impact : ℝ) * (r.breadth : ℝ) * r.probability ∧
      0 ≤ r.impact ∧ r.impact ≤ 1 ∧
      0 ≤ r.breadth ∧ r.breadth ≤ 1 ∧
      0 ≤ r.probability ∧ r.probability ≤ 1 ∧
      0 ≤ r.risk_score ∧ r.risk_score ≤ 1 := by
  intro r hr
  subst hr
  have hi0 : (0:ℚ) ≤ (evaluate_action fmtR fmtQ policy st session_id action target md now).impact := by
    rw [evaluate_impact_eq]
    exact le_trans (by norm_num) (calculate_impact_lb policy action md hboost)
  have hi1 : (evaluate_action fmtR fmtQ policy st session_id action target md now).impact ≤ 1 := by
    rw [evaluate_impact_eq]
    exact calculate_impact_ub policy action md
  have hb0 : (0:ℚ) ≤ (evaluate_action fmtR fmtQ policy st session_id action target md now).breadth :=
    le_trans (by norm_num) (evaluate_breadth_lb fmtR fmtQ policy st session_id action target md now hsrb)
  have hb1 := evaluate_breadth_ub fmtR fmtQ policy st session_id action target md now
  have hp0 : (0:ℝ) ≤ (evaluate_action fmtR fmtQ policy st session_id action target md now).probability :=
    le_trans (by norm_num) (evaluate_probability_lb fmtR fmtQ policy st session_id action target md now hsev hmax)
  have hp1 := evaluate_probability_ub fmtR fmtQ policy st session_id action target md now
  refine ⟨evaluate_risk_eq fmtR fmtQ policy st session_id action target md now,
    hi0, hi1, hb0, hb1, hp0, hp1, ?_, ?_⟩
  · rw [evaluate_risk_eq]
    have hi0' : (0:ℝ) ≤ ((evaluate_action fmtR fmtQ policy st session_id action target md now).impact : ℝ) := by
      exact_mod_cast hi0
    have hb0' : (0:ℝ) ≤ ((evaluate_action fmtR fmtQ policy st session_id action target md now).breadth : ℝ) := by
      exact_mod_cast hb0
    exact mul_nonneg (mul_nonneg hi0' hb0') hp0
  · exact evaluate_risk_ub fmtR fmtQ policy st session_id action target md now hboost hsrb hsev hmax

/-- Witness for C2 at a concrete input: the default policy, an empty
store and the request of the spec's first seed scenario. -/
theorem risk_score_product_and_unit_ranges_witness :
    (evaluate_action (fun _ => "") (fun _ => "") {} {} "s1" "send_email"
        (some "user@example.com") [] 0).risk_score
      = ((evaluate_action (fun _ => "") (fun _ => "") {} {} "s1" "send_email"
          (some "user@example.com") [] 0).impact : ℝ) *
        ((evaluate_action (fun _ => "") (fun _ => "") {} {} "s1" "send_email"
          (some "user@example.com") [] 0).breadth : ℝ) *
        (evaluate_action (fun _ => "") (fun _ => "") {} {} "s1" "send_email"
          (some "user@example.com") [] 0).probability ∧
    0 ≤ (evaluate_action (fun _ => "") (fun _ => "") {} {} "s1" "send_email"
        (some "user@example.com") [] 0).impact ∧
    (evaluate_action (fun _ => "") (fun _ => "") {} {} "s1" "send_email"
        (some "user@example.com") [] 0).impact ≤ 1 ∧
    0 ≤ (evaluate_action (fun _ => "") (fun _ => "") {} {} "s1" "send_email"
        (some "user@example.com") [] 0).breadth ∧
    (evaluate_action (fun _ => "") (fun _ => "") {} {} "s1" "send_email"
        (some "user@example.com") [] 0).breadth ≤ 1 ∧
    0 ≤ (evaluate_action (fun _ => "") (fun _ => "") {} {} "s1" "send_email"
        (some "user@example.com") [] 0).probability ∧
    (evaluate_action (fun _ => "") (fun _ => "") {} {} "s1" "send_email"
        (some "user@example.com") [] 0).probability ≤ 1 ∧
    0 ≤ (evaluate_action (fun _ => "") (fun _ => "") {} {} "s1" "send_email"
        (some "user@example.com") [] 0).risk_score ∧
    (evaluate_action (fun _ => "") (fun _ => "") {} {} "s1" "send_email"
        (some "user@example.com") [] 0).risk_score ≤ 1 :=
  risk_score_product_and_unit_ranges (fun _ => "") (fun _ => "") {} {} "s1" "send_email"
    (some "user@example.com") [] 0
    (by simp) (by norm_num) (by simp) (by norm_num) _ rfl

/-- Claim C3: the near-miss multiplier the code computes equals the
spec's closed formula — 1 plus the sum over rows matching the action
with actual_severity at least min_severity of
severity * 0.5 * 0.5 ^ (age / half_life), capped at max_multiplier
(rows below min_severity contribute nothing, being filtered out of the
sum) — and evaluate multiplies the probability component by this
multiplier, clamping to 1. The hypothesis max_multiplier at least 1
(default 2.0) covers the source's early return of 1 on an empty match
list, which bypasses the cap. -/
theorem near_miss_multiplier_formula
    (cfg : NearMissConfig) (nms : List NearMissRec) (action : String) (now : ℚ)
    (hmax : 1 ≤ cfg.max_multiplier) :
    near_miss_multiplier cfg nms action now = spec_near_miss_multiplier cfg nms action now ∧
    ∀ (fmtR : ℝ → String) (fmtQ : ℚ → String) (policy : PolicyConfig) (st : DBState)
      (session_id action2 : String) (target : Option String) (md : Metadata) (now2 : ℚ),
      (evaluate_action fmtR fmtQ policy st session_id action2 target md now2).probability
        = min 1 ((calculate_probability md : ℝ) *
            near_miss_multiplier policy.near_miss st.near_misses action2 now2) := by
  refine ⟨near_miss_multiplier_eq_spec cfg nms action now hmax, ?_⟩
  intro fmtR fmtQ policy st session_id action2 target md now2
  exact evaluate_probability_eq fmtR fmtQ policy st session_id action2 target md now2

/-- A concrete near-miss history: one row for the action at severity 0.8
and one below the default min severity 0.1. -/
def nmHistory : List NearMissRec :=
  [{ action := "deploy", near_miss_type := "boundary_violation",
     actual_severity := 8/10, created_at := 0 },
   { action := "deploy", near_miss_type := "boundary_violation",
     actual_severity := 1/20, created_at := 0 }]

/-- Witness for C3 at a concrete input: the default near-miss
configuration and a two-row history. -/
theorem near_miss_multiplier_formula_witness :
    near_miss_multiplier {} nmHistory "deploy" 0
      = spec_near_miss_multiplier {} nmHistory "deploy" 0 ∧
    ∀ (fmtR : ℝ → String) (fmtQ : ℚ → String) (policy : PolicyConfig) (st : DBState)
      (session_id action2 : String) (target : Option String) (md : Metadata) (now2 : ℚ),
      (evaluate_action fmtR fmtQ policy st session_id action2 target md now2).probability
        = min 1 ((calculate_probability md : ℝ) *
            near_miss_multiplier policy.near_miss st.near_misses action2 now2) :=
  near_miss_multiplier_formula {} nmHistory "deploy" 0 (by norm_num)

/-- Claim C9: for every action name and near-miss history (with the
API-validated non-negative severities and a policy max multiplier at
least 1), the near-miss multiplier is at least 1, so applying near-miss
learning never decreases the probability component below its raw scorer
value. -/
theorem near_miss_multiplier_ge_one
    (policy : PolicyConfig) (st : DBState) (action : String) (now : ℚ)
    (hsev : ∀ nm ∈ st.near_misses, 0 ≤ nm.actual_severity)
    (hmax : 1 ≤ policy.near_miss.max_multiplier) :
    1 ≤ near_miss_multiplier policy.near_miss st.near_misses action now ∧
    ∀ (fmtR : ℝ → String) (fmtQ : ℚ → String) (session_id : String)
      (target : Option String) (md : Metadata),
      (calculate_probability md : ℝ)
        ≤ (evaluate_action fmtR fmtQ policy st session_id action target md now).probability := by
  have hm := one_le_near_miss_multiplier policy.near_miss st.near_misses action now hsev hmax
  refine ⟨hm, ?_⟩
  intro fmtR fmtQ session_id target md
  rw [evaluate_probability_eq]
  have hp1 : (calculate_probability md : ℝ) ≤ 1 := by
    have h := calculate_probability_ub md
    exact_mod_cast h
  have hp0 : (0:ℝ) ≤ (calculate_probability md : ℝ) := by
    have h := calculate_probability_lb md
    have h0 : (0:ℚ) ≤ calculate_probability md := le_trans (by norm_num) h
    exact_mod_cast h0
  exact le_min hp1 (le_mul_of_one_le_right hp0 hm)

/-- Witness for C9 at a concrete input: the default policy with the
two-row history of the C3 witness. -/
theorem near_miss_multiplier_ge_one_witness :
    1 ≤ near_miss_multiplier ({} : PolicyConfig).near_miss
        ({ near_misses := nmHistory } : DBState).near_misses "deploy" 0 ∧
    ∀ (fmtR : ℝ → String) (fmtQ : ℚ → String) (session_id : String)
      (target : Option String) (md : Metadata),
      (calculate_probability md : ℝ)
        ≤ (evaluate_action fmtR fmtQ {} { near_misses := nmHistory } session_id "deploy"
            target md 0).probability :=
  near_miss_multiplier_ge_one {} { near_misses := nmHistory } "deploy" 0
    (by intro nm hnm
        simp only [nmHistory, List.mem_cons, List.mem_singleton] at hnm
        rcases hnm with h | h | h
        · rw [h]; norm_num
        · rw [h]; norm_num
        · cases h)
    (by norm_num)

/-! ### Concrete-evaluation helper lemmas -/

lemma metaTruthy_nil (k : String) : metaTruthy [] k = false := rfl

lemma metaGet_nil (k : String) : metaGet [] k = none := rfl

lemma calculate_impact_no_rule_no_md (policy : PolicyConfig) (action : String)
    (hrule : get_action_rule policy action = none) :
    calculate_impact policy action [] = 3/10 := by
  unfold calculate_impact impactPre
  rw [hrule]
  simp only [metaTruthy_nil, boostIf, Bool.false_eq_true, if_false]
  norm_num

lemma calculate_probability_nil : calculate_probability [] = 3/10 := by
  unfold calculate_probability probabilityPre
  simp only [metaTruthy_nil, metaGet_nil, boostIf, Bool.false_eq_true, if_false]
  norm_num

lemma breadthTarget_plain_user : breadthTarget (some "user@x") = 3/10 := by
  simp only [breadthTarget]
  rw [if_neg (by decide : ¬ ("user@x" = "")),
    if_neg (by decide : ¬ ((["all", "everyone", "public", "broadcast"].any
      (fun w => strContains (pyLower "user@x") w)) = true)),
    if_neg (by decide : ¬ ((["group", "team", "list"].any
      (fun w => strContains (pyLower "user@x") w)) = true))]

lemma calculate_breadth_plain_user : calculate_breadth (some "user@x") [] = 3/10 := by
  rw [calculate_breadth_plain (some "user@x") [] rfl rfl rfl]
  unfold breadthRecipients
  rw [metaTruthy_nil]
  simp only [Bool.false_eq_true, if_false]
  rw [breadthTarget_plain_user]
  norm_num

lemma nmm_empty (cfg : NearMissConfig) (action : String) (now : ℚ) :
    near_miss_multiplier cfg [] action now = 1 := rfl

/-- Claim C5 as amended: the checkpoint decision takes the four branches
in order with the first match winning — always_checkpoint rule (reason
"Action rule: " plus the description), then risk score above the
trigger, then projected session total above the budget, else no
checkpoint with an empty reason; when the action is compound the string
"Compound action (Nx). " is prepended to a non-empty reason, and when no
other reason was produced the reason is "Compound action (Nx). Compound
action detected (Nx)" (not the prefix alone); and every evaluate call's
needs_checkpoint and reason are exactly this decision applied to its
matched rule, risk score, trigger, session and compound state. -/
theorem checkpoint_order_and_compound_text
    (fmtR : ℝ → String) (fmtQ : ℚ → String) (ruleAlways : Bool) (ruleDesc : String)
    (risk : ℝ) (trigger cum budget : ℚ) :
    (ruleAlways = true →
      checkpoint_decision fmtR fmtQ ruleAlways ruleDesc risk trigger cum budget
        = (true, "Action rule: " ++ ruleDesc)) ∧
    (ruleAlways = false → risk > (trigger : ℝ) →
      (checkpoint_decision fmtR fmtQ ruleAlways ruleDesc risk trigger cum budget).1 = true) ∧
    (ruleAlways = false → ¬ risk > (trigger : ℝ) → (cum : ℝ) + risk > (budget : ℝ) →
      (checkpoint_decision fmtR fmtQ ruleAlways ruleDesc risk trigger cum budget).1 = true) ∧
    (ruleAlways = false → ¬ risk > (trigger : ℝ) → ¬ (cum : ℝ) + risk > (budget : ℝ) →
      checkpoint_decision fmtR fmtQ ruleAlways ruleDesc risk trigger cum budget = (false, "")) ∧
    (∀ (count : ℕ) (reason : String), reason ≠ "" →
      compound_reason true count reason
        = "Compound action (" ++ toString count ++ "x). " ++ reason) ∧
    (∀ count : ℕ, compound_reason true count ""
        = "Compound action (" ++ toString count ++ "x). " ++
            ("Compound action detected (" ++ toString count ++ "x)")) ∧
    (∀ (count : ℕ) (reason : String), compound_reason false count reason = reason) ∧
    (∀ (policy : PolicyConfig) (st : DBState) (session_id action : String)
        (target : Option String) (md : Metadata) (now : ℚ),
      (evaluate_action fmtR fmtQ policy st session_id action target md now).needs_checkpoint
        = (checkpoint_decision fmtR fmtQ
            (((get_action_rule policy action).map ActionRule.always_checkpoint).getD false)
            (((get_action_rule policy action).map ActionRule.description).getD "")
            (evaluate_action fmtR fmtQ policy st session_id action target md now).risk_score
            policy.risk_thresholds.checkpoint_trigger
            (sessionOf policy st session_id).cumulative_risk
            (sessionOf policy st session_id).risk_budget).1 ∧
      (evaluate_action fmtR fmtQ policy st session_id action target md now).reason
        = compound_reason
            (detect_compound_action policy.compound_detection st.actions session_id target now).1
            (detect_compound_action policy.compound_detection st.actions session_id target now).2
            (checkpoint_decision fmtR fmtQ
              (((get_action_rule policy action).map ActionRule.always_checkpoint).getD false)
              (((get_action_rule policy action).map ActionRule.description).getD "")
              (evaluate_action fmtR fmtQ policy st session_id action target md now).risk_score
              policy.risk_thresholds.checkpoint_trigger
              (sessionOf policy st session_id).cumulative_risk
              (sessionOf policy st session_id).risk_budget).2) := by
  refine ⟨?_, ?_, ?_, ?_, ?_, ?_, ?_, ?_⟩
  · intro h
    unfold checkpoint_decision
    rw [h, if_pos rfl]
  · intro h h2
    unfold checkpoint_decision
    rw [h, if_neg (by simp : ¬ (false = true)), if_pos h2]
  · intro h h2 h3
    unfold checkpoint_decision
    rw [h, if_neg (by simp : ¬ (false = true)), if_neg h2, if_pos h3]
  · intro h h2 h3
    unfold checkpoint_decision
    rw [h, if_neg (by simp : ¬ (false = true)), if_neg h2, if_neg h3]
  · intro count reason h
    simp only [compound_reason, if_true]
    rw [if_pos h]
  · intro count
    simp only [compound_reason, if_true]
    rw [if_neg (by simp : ¬ ("" ≠ ""))]
  · intro count reason
    simp only [compound_reason, Bool.false_eq_true, if_false]
  · intro policy st session_id action target md now
    exact ⟨evaluate_needs_eq fmtR fmtQ policy st session_id action target md now,
      evaluate_reason_eq fmtR fmtQ policy st session_id action target md now⟩

/-- Witness for C5 at concrete decision inputs. -/
theorem checkpoint_order_and_compound_text_witness :
    ((false : Bool) = true →
      checkpoint_decision (fun _ => "") (fun _ => "") false "d" 0 1 0 1
        = (true, "Action rule: " ++ "d")) ∧
    ((false : Bool) = false → (0:ℝ) > ((1:ℚ) : ℝ) →
      (checkpoint_decision (fun _ => "") (fun _ => "") false "d" 0 1 0 1).1 = true) ∧
    ((false : Bool) = false → ¬ (0:ℝ) > ((1:ℚ) : ℝ) → ((0:ℚ) : ℝ) + 0 > ((1:ℚ) : ℝ) →
      (checkpoint_decision (fun _ => "") (fun _ => "") false "d" 0 1 0 1).1 = true) ∧
    ((false : Bool) = false → ¬ (0:ℝ) > ((1:ℚ) : ℝ) → ¬ ((0:ℚ) : ℝ) + 0 > ((1:ℚ) : ℝ) →
      checkpoint_decision (fun _ => "") (fun _ => "") false "d" 0 1 0 1 = (false, "")) ∧
    (∀ (count : ℕ) (reason : String), reason ≠ "" →
      compound_reason true count reason
        = "Compound action (" ++ toString count ++ "x). " ++ reason) ∧
    (∀ count : ℕ, compound_reason true count ""
        = "Compound action (" ++ toString count ++ "x). " ++
            ("Compound action detected (" ++ toString count ++ "x)")) ∧
    (∀ (count : ℕ) (reason : String), compound_reason false count reason = reason) ∧
    (∀ (policy : PolicyConfig) (st : DBState) (session_id action : String)
        (target : Option String) (md : Metadata) (now : ℚ),
      (evaluate_action (fun _ => "") (fun _ => "") policy st session_id action target md now).needs_checkpoint
        = (checkpoint_decision (fun _ => "") (fun _ => "")
            (((get_action_rule policy action).map ActionRule.always_checkpoint).getD false)
            (((get_action_rule policy action).map ActionRule.description).getD "")
            (evaluate_action (fun _ => "") (fun _ => "") policy st session_id action target md now).risk_score
            policy.risk_thresholds.checkpoint_trigger
            (sessionOf policy st session_id).cumulative_risk
            (sessionOf policy st session_id).risk_budget).1 ∧
      (evaluate_action (fun _ => "") (fun _ => "") policy st session_id action target md now).reason
        = compound_reason
            (detect_compound_action policy.compound_detection st.actions session_id target now).1
            (detect_compound_action policy.compound_detection st.actions session_id target now).2
            (checkpoint_decision (fun _ => "") (fun _ => "")
              (((get_action_rule policy action).map ActionRule.always_checkpoint).getD false)
              (((get_action_rule policy action).map ActionRule.description).getD "")
              (evaluate_action (fun _ => "") (fun _ => "") policy st session_id action target md now).risk_score
              policy.risk_thresholds.checkpoint_trigger
              (sessionOf policy st session_id).cumulative_risk
              (sessionOf policy st session_id).risk_budget).2) :=
  checkpoint_order_and_compound_text (fun _ => "") (fun _ => "") false "d" 0 1 0 1

/-- A policy whose trigger and budget are high enough that a low-risk
compound action yields no base reason. -/
def quietPolicy : PolicyConfig :=
  { risk_thresholds := { checkpoint_trigger := 1, session_budget := 10 } }

/-- A store with one prior action on the same session and target, inside
the compound window. -/
def compoundStore : DBState :=
  { actions := [{ id := 1, session_id := "s1", action := "send_email",
                  target := some "user@x", created_at := 100 }],
    sessions := [{ session_id := "s1", risk_budget := 10, cumulative_risk := 0 }] }

/-- Claim C5 counterexample: on a compound evaluate that produced no
other reason, the reason string is
"Compound action (2x). Compound action detected (2x)", not the prefix
"Compound action (2x). " used alone as the claim states. -/
theorem compound_reason_not_prefix_alone :
    (evaluate_action (fun _ => "") (fun _ => "") quietPolicy compoundStore "s1" "send_email"
        (some "user@x") [] 200).reason
      = "Compound action (2x). Compound action detected (2x)" ∧
    ¬ (evaluate_action (fun _ => "") (fun _ => "") quietPolicy compoundStore "s1" "send_email"
        (some "user@x") [] 200).reason = "Compound action (2x). " := by
  have hdc : detect_compound_action quietPolicy.compound_detection compoundStore.actions
      "s1" (some "user@x") 200 = (true, 2) := by
    simp only [detect_compound_action, compoundStore]
    rw [if_neg (by decide : ¬ ("user@x" = ""))]
    simp [quietPolicy, List.filter_cons,
      show (decide ((200:ℚ) ≤ 100 + 300)) = true from decide_eq_true (by norm_num)]
  have hrule : get_action_rule quietPolicy "send_email" = none := rfl
  have hrisk : (evaluate_action (fun _ => "") (fun _ => "") quietPolicy compoundStore "s1"
      "send_email" (some "user@x") [] 200).risk_score = (189/5000 : ℝ) := by
    rw [evaluate_risk_eq, evaluate_impact_eq, evaluate_breadth_eq, evaluate_probability_eq,
      hdc, calculate_impact_no_rule_no_md quietPolicy "send_email" hrule,
      calculate_probability_nil]
    have hnm : compoundStore.near_misses = [] := rfl
    rw [hnm, calculate_breadth_plain_user, nmm_empty]
    simp only [if_true]
    norm_num [quietPolicy]
  have hsess : sessionOf quietPolicy compoundStore "s1"
      = { session_id := "s1", risk_budget := 10, cumulative_risk := 0 } := rfl
  have hreason : (evaluate_action (fun _ => "") (fun _ => "") quietPolicy compoundStore "s1"
      "send_email" (some "user@x") [] 200).reason
      = "Compound action (2x). Compound action detected (2x)" := by
    rw [evaluate_reason_eq, hdc, hrisk, hrule, hsess]
    simp only [Option.map_none', Option.getD_none]
    have hbase : checkpoint_decision (fun _ => "") (fun _ => "") false ""
        ((189/5000 : ℝ)) quietPolicy.risk_thresholds.checkpoint_trigger 0 10 = (false, "") := by
      unfold checkpoint_decision
      rw [if_neg (by simp : ¬ (false = true))]
      rw [if_neg (by norm_num [quietPolicy] :
        ¬ ((189/5000 : ℝ) > (quietPolicy.risk_thresholds.checkpoint_trigger : ℝ)))]
      rw [if_neg (by push_cast; norm_num :
        ¬ (((0:ℚ) : ℝ) + (189/5000 : ℝ) > ((10:ℚ) : ℝ)))]
    rw [hbase]
    simp only [compound_reason, if_true]
    rw [if_neg (by simp : ¬ ("" ≠ ""))]
    rfl
  exact ⟨hreason, by rw [hreason]; decide⟩

/-- Claim C7 as amended: under a policy with checkpoint_trigger = 0
every evaluate decides needs_checkpoint = true (the risk score is always
strictly positive); and under session_budget = 0 (a zero-budget session,
its cumulative risk non-negative) the checkpoint is forced on every
action, including the first action of a session — not only from the
second action on. The policy hypotheses are as in the risk-range
theorem. -/
theorem zero_trigger_zero_budget_force_checkpoint
    (fmtR : ℝ → String) (fmtQ : ℚ → String) (policy : PolicyConfig) (st : DBState)
    (session_id action : String) (target : Option String) (md : Metadata) (now : ℚ)
    (hboost : ∀ r ∈ policy.action_rules, ∀ kv ∈ r.metadata_boosts, 0 ≤ kv.2)
    (hsrb : 0 ≤ policy.compound_detection.same_resource_boost)
    (hsev : ∀ nm ∈ st.near_misses, 0 ≤ nm.actual_severity)
    (hmax : 1 ≤ policy.near_miss.max_multiplier) :
    (policy.risk_thresholds.checkpoint_trigger = 0 →
      (evaluate_action fmtR fmtQ policy st session_id action target md now).needs_checkpoint = true) ∧
    ((sessionOf policy st session_id).risk_budget = 0 →
      0 ≤ (sessionOf policy st session_id).cumulative_risk →
      (evaluate_action fmtR fmtQ policy st session_id action target md now).needs_checkpoint = true) := by
  have hpos := evaluate_risk_pos fmtR fmtQ policy st session_id action target md now
    hboost hsrb hsev hmax
  constructor
  · intro htr
    rw [evaluate_needs_eq]
    unfold checkpoint_decision
    cases hA : ((get_action_rule policy action).map ActionRule.always_checkpoint).getD false with
    | true => rw [if_pos rfl]
    | false =>
      rw [if_neg (by simp : ¬ (false = true))]
      by_cases h2 : (evaluate_action fmtR fmtQ policy st session_id action target md now).risk_score
          > (policy.risk_thresholds.checkpoint_trigger : ℝ)
      · rw [if_pos h2]
      · exfalso
        rw [htr] at h2
        push_cast at h2
        exact h2 hpos
  · intro hbud hcum
    rw [evaluate_needs_eq]
    unfold checkpoint_decision
    cases hA : ((get_action_rule policy action).map ActionRule.always_checkpoint).getD false with
    | true => rw [if_pos rfl]
    | false =>
      rw [if_neg (by simp : ¬ (false = true))]
      by_cases h2 : (evaluate_action fmtR fmtQ policy st session_id action target md now).risk_score
          > (policy.risk_thresholds.checkpoint_trigger : ℝ)
      · rw [if_pos h2]
      · rw [if_neg h2]
        have h3 : ((sessionOf policy st session_id).cumulative_risk : ℝ)
            + (evaluate_action fmtR fmtQ policy st session_id action target md now).risk_score
            > ((sessionOf policy st session_id).risk_budget : ℝ) := by
          rw [hbud]
          push_cast
          have hc : (0:ℝ) ≤ ((sessionOf policy st session_id).cumulative_risk : ℝ) := by
            exact_mod_cast hcum
          linarith
        rw [if_pos h3]

/-- Witness for C7 at a concrete policy whose trigger and budget are
both zero, with an empty store and the default rule list. -/
theorem zero_trigger_zero_budget_force_checkpoint_witness :
    (({ risk_thresholds := { checkpoint_trigger := 0, session_budget := 0 } }
        : PolicyConfig).risk_thresholds.checkpoint_trigger = 0 →
      (evaluate_action (fun _ => "") (fun _ => "")
        { risk_thresholds := { checkpoint_trigger := 0, session_budget := 0 } } {}
        "s1" "send_email" (some "user@x") [] 0).needs_checkpoint = true) ∧
    ((sessionOf { risk_thresholds := { checkpoint_trigger := 0, session_budget := 0 } } {}
        "s1").risk_budget = 0 →
      0 ≤ (sessionOf { risk_thresholds := { checkpoint_trigger := 0, session_budget := 0 } } {}
        "s1").cumulative_risk →
      (evaluate_action (fun _ => "") (fun _ => "")
        { risk_thresholds := { checkpoint_trigger := 0, session_budget := 0 } } {}
        "s1" "send_email" (some "user@x") [] 0).needs_checkpoint = true) :=
  zero_trigger_zero_budget_force_checkpoint (fun _ => "") (fun _ => "")
    { risk_thresholds := { checkpoint_trigger := 0, session_budget := 0 } } {}
    "s1" "send_email" (some "user@x") [] 0
    (by simp) (by norm_num) (by simp) (by norm_num)

/-- A policy with the default trigger 0.6 and a zero session budget. -/
def zeroBudgetPolicy : PolicyConfig :=
  { risk_thresholds := { checkpoint_trigger := 6/10, session_budget := 0 } }

/-- Claim C7 counterexample: with session_budget = 0 (and the default
trigger 0.6, which the risk 0.027 does not exceed) the very first action
of a fresh session is already checkpointed, refuting the claim that the
forced checkpoint starts only with the second action. -/
theorem zero_budget_checkpoints_first_action :
    (evaluate_action (fun _ => "") (fun _ => "") zeroBudgetPolicy {} "s1" "send_email"
        (some "user@x") [] 0).needs_checkpoint = true ∧
    ({} : DBState).actions = [] := by
  refine ⟨?_, rfl⟩
  have hdc : detect_compound_action zeroBudgetPolicy.compound_detection ({} : DBState).actions
      "s1" (some "user@x") 0 = (false, 1) := by
    simp only [detect_compound_action]
    rw [if_neg (by decide : ¬ ("user@x" = ""))]
    norm_num [zeroBudgetPolicy]
  have hrule : get_action_rule zeroBudgetPolicy "send_email" = none := rfl
  have hrisk : (evaluate_action (fun _ => "") (fun _ => "") zeroBudgetPolicy {} "s1" "send_email"
      (some "user@x") [] 0).risk_score = (27/1000 : ℝ) := by
    rw [evaluate_risk_eq, evaluate_impact_eq, evaluate_breadth_eq, evaluate_probability_eq,
      hdc, calculate_impact_no_rule_no_md zeroBudgetPolicy "send_email" hrule,
      calculate_probability_nil]
    simp only [Bool.false_eq_true, if_false]
    rw [calculate_breadth_plain_user, nmm_empty]
    norm_num
  have hsess : sessionOf zeroBudgetPolicy {} "s1"
      = { session_id := "s1", risk_budget := 0, cumulative_risk := 0 } := rfl
  rw [evaluate_needs_eq, hrisk, hrule, hsess]
  simp only [Option.map_none', Option.getD_none]
  unfold checkpoint_decision
  rw [if_neg (by simp : ¬ (false = true))]
  rw [if_neg (by norm_num [zeroBudgetPolicy] :
    ¬ ((27/1000 : ℝ) > (zeroBudgetPolicy.risk_thresholds.checkpoint_trigger : ℝ)))]
  rw [if_pos (by push_cast; norm_num : (((0:ℚ) : ℝ) + (27/1000 : ℝ) > ((0:ℚ) : ℝ)))]
